import Mathlib

/-!
# Verification of the room-scoped collaborative session coordinator

Shallow embedding of the socket event handlers of `src/server.ts` (the
"coordinator"): the SQL tables become lists of rows, each `socket.on`
handler becomes a pure function from the database state (plus the
client-supplied payload and, where the code reads the clock, an explicit
`now` parameter) to the new database state and the list of emitted
socket messages.  Emission targets distinguish `io.to(room)` (the whole
room), `socket.to(room)` (room minus sender) and `socket.emit` (the
sender only), so that delivery to individual sockets can be stated.
-/

namespace MapChaos

/-- Row of the `trips` table. -/
structure TripRow where
  id : String
  room_id : String
  title : String
  created_at : Nat
deriving DecidableEq, Repr

/-- Row of the `rooms` table. -/
structure RoomRow where
  id : String
  title : String
  host_id : String
  active_members : String
  ai_thinking : Bool
deriving DecidableEq, Repr

/-- Row of the `users` table.  `status_emoji` is nullable in the schema. -/
structure UserRow where
  id : String
  nickname : String
  avatar_url : String
  status_emoji : Option String
  rps_wins : Int
  undo_used : Int
deriving DecidableEq, Repr

/-- Row of the `pins` table.  The coordinator never computes with the
coordinates, so `lat`/`lng` are carried as opaque integers. -/
structure PinRow where
  id : String
  trip_id : String
  room_id : String
  place_id : String
  name : String
  lat : Int
  lng : Int
  assigned_day : Int
  time_slot : Option String
  order_idx : Int
  locked_by : Option String
  locked_until : Option String
deriving DecidableEq, Repr

/-- Row of the `canvas_events` table. `created_at` is the insertion
timestamp (`CURRENT_TIMESTAMP`), `is_undone` defaults to false. -/
structure CanvasEventRow where
  id : String
  room_id : String
  user_id : String
  type : String
  payload : String
  created_at : Nat
  is_undone : Bool
deriving DecidableEq, Repr

/-- Row of the `messages` table. -/
structure MessageRow where
  id : String
  room_id : String
  sender_id : String
  msg_type : String
  content : String
  target_user_id : Option String
  action_payload : Option String
  created_at : Nat
deriving DecidableEq, Repr

/-- The whole persistent state: one list of rows per table. -/
structure DB where
  trips : List TripRow
  rooms : List RoomRow
  users : List UserRow
  pins : List PinRow
  canvas_events : List CanvasEventRow
  messages : List MessageRow
deriving DecidableEq, Repr

/-- Payloads of the socket messages emitted by the handlers. -/
inductive Payload where
  | syncTrips (trips : List TripRow)
  | userJoined (userId : String)
  | profileUpdated (userId nickname avatarUrl : String)
  | userCursorMoved (userId center : String)
  | tripCreated (id roomId title : String)
  | syncPins (pins : List PinRow)
  | syncAction (actionId userId type payload : String)
  | undoExecute (actionId : String)
  | summonAlert (fromId targetUserId coords : String) (expiresAt : Nat)
  | pinDragStart (pinId userId : String)
  | battleStart (pinId userA userB : String)
  | rpsChoiceReceived (battleId userId choice : String)
  | battleResultSync (winnerId pinId : String)
  | startVote (voteId pinId : String) (targetDay : Int)
      (initiatorId : String) (expiresAt : Nat)
  | voteReceived (voteId userId : String) (isAgree : Bool)
  | voteResultSync (success : Bool) (pinId : String) (targetDay : Int)
  | pinTimeUpdated (pinId : String) (timeSlot : Option String) (day : Int)
  | syncMessage (id userId content : String) (createdAt : Nat)
  | aiState (isThinking : Bool)
deriving DecidableEq, Repr

/-- Where an emitted message goes: `io.to(room)` reaches every socket in
the room (sender included when it is a member), `socket.to(room)` every
socket in the room except the sender, `socket.emit` only the sender. -/
inductive Target where
  | room (roomId : String)
  | roomExceptSender (roomId : String)
  | selfSocket
deriving DecidableEq, Repr

/-- One emitted socket message. -/
structure OutMsg where
  target : Target
  payload : Payload
deriving DecidableEq, Repr

/-- socket.io room membership: the set of (roomId, socketId) pairs. -/
abbrev Rooms := List (String × String)

/-- Whether socket `s` receives message `m` that socket `sender` caused
to be emitted, given membership `rooms`. -/
def delivered (rooms : Rooms) (sender : String) (m : OutMsg) (s : String) : Bool :=
  match m.target with
  | Target.room r => List.contains rooms (r, s)
  | Target.roomExceptSender r => List.contains rooms (r, s) && !(s == sender)
  | Target.selfSocket => s == sender

/-- `socket.join(roomId)`: adds the pair, idempotently. -/
def joinRooms (rooms : Rooms) (s r : String) : Rooms :=
  if List.contains rooms (r, s) then rooms else (r, s) :: rooms

/-- `join_room` handler (src/server.ts:154-164): `socket.join(roomId)`,
reply `SYNC_TRIPS` to the joining socket only, then
`io.to(roomId).emit("USER_JOINED", { userId: socket.id })`. -/
def handleJoinRoom (rooms : Rooms) (db : DB) (socketId roomId : String) :
    Rooms × List OutMsg :=
  (joinRooms rooms socketId roomId,
   [⟨Target.selfSocket, Payload.syncTrips (db.trips.filter (fun t => t.room_id == roomId))⟩,
    ⟨Target.room roomId, Payload.userJoined socketId⟩])

/-- `UPDATE_PROFILE` handler (src/server.ts:166-184):
`INSERT INTO users (id, nickname, avatar_url) VALUES (?,?,?)
 ON CONFLICT(id) DO UPDATE SET nickname=excluded.nickname,
 avatar_url=excluded.avatar_url`, then a whole-room broadcast. -/
def handleUpdateProfile (db : DB) (roomId userId nickname avatarUrl : String) :
    DB × List OutMsg :=
  let users' :=
    if db.users.any (fun u => u.id == userId) then
      db.users.map (fun u =>
        if u.id = userId then
          { u with nickname := nickname, avatar_url := avatarUrl }
        else u)
    else
      db.users ++ [{ id := userId, nickname := nickname, avatar_url := avatarUrl,
                     status_emoji := none, rps_wins := 0, undo_used := 0 }]
  ({ db with users := users' },
   [⟨Target.room roomId, Payload.profileUpdated userId nickname avatarUrl⟩])

/-- `DRAW_ACTION` handler (src/server.ts:203-218).  `writeOk` is the
outcome of the awaited `INSERT`: when it fails the exception aborts the
handler before the broadcast, so nothing is inserted and nothing at all
is emitted.  `now` is `Date.now()`, `rand` the random id suffix. -/
def handleDrawAction (writeOk : Bool) (db : DB)
    (roomId userId type payload : String) (now : Nat) (rand : String) :
    DB × List OutMsg :=
  let id := "evt_" ++ toString now ++ "_" ++ rand
  if writeOk then
    ({ db with canvas_events := db.canvas_events ++
        [{ id := id, room_id := roomId, user_id := userId, type := type,
           payload := payload, created_at := now, is_undone := false }] },
     [⟨Target.room roomId, Payload.syncAction id userId type payload⟩])
  else
    (db, [])

/-- Matches `WHERE room_id = ? AND is_undone = 0`. -/
def undoableIn (roomId : String) (e : CanvasEventRow) : Bool :=
  e.room_id == roomId && !e.is_undone

/-- The non-undone events of a room, in insertion (log) order. -/
def undoable (roomId : String) (db : DB) : List CanvasEventRow :=
  db.canvas_events.filter (undoableIn roomId)

/-- One step of scanning for the row that `ORDER BY created_at DESC
LIMIT 1` returns: keep the row with the larger timestamp, later log
entries winning ties (ties are broken by insertion order). -/
def pickStep (acc : Option CanvasEventRow) (e : CanvasEventRow) :
    Option CanvasEventRow :=
  match acc with
  | none => some e
  | some b => if b.created_at ≤ e.created_at then some e else some b

/-- `SELECT * FROM canvas_events WHERE room_id = ? AND is_undone = 0
ORDER BY created_at DESC LIMIT 1` (src/server.ts:221-225). -/
def mostRecentUndoable (db : DB) (roomId : String) : Option CanvasEventRow :=
  (undoable roomId db).foldl pickStep none

/-- `UPDATE canvas_events SET is_undone = 1 WHERE id = ?`. -/
def markUndone (eventId : String) (evs : List CanvasEventRow) :
    List CanvasEventRow :=
  evs.map (fun e => if e.id = eventId then { e with is_undone := true } else e)

/-- `UNDO_REQUEST` handler (src/server.ts:220-231): fetch the most
recent non-undone event of the room; if there is one, flag it undone and
broadcast `UNDO_EXECUTE` with its id; otherwise do nothing. -/
def handleUndoRequest (db : DB) (roomId : String) : DB × List OutMsg :=
  match mostRecentUndoable db roomId with
  | none => (db, [])
  | some e =>
      ({ db with canvas_events := markUndone e.id db.canvas_events },
       [⟨Target.room roomId, Payload.undoExecute e.id⟩])

/-- `BATTLE_START_TRIGGER` handler (src/server.ts:250-253): an
unconditional whole-room rebroadcast; no state is read or written. -/
def handleBattleStartTrigger (db : DB) (roomId pinId userA userB : String) :
    DB × List OutMsg :=
  (db, [⟨Target.room roomId, Payload.battleStart pinId userA userB⟩])

/-- `RPS_CHOICE` handler (src/server.ts:255-258): an unconditional
whole-room rebroadcast of the choice; no state is read or written. -/
def handleRpsChoice (db : DB) (roomId battleId userId choice : String) :
    DB × List OutMsg :=
  (db, [⟨Target.room roomId, Payload.rpsChoiceReceived battleId userId choice⟩])

/-- `BATTLE_RESULT` handler (src/server.ts:260-263): the client-supplied
`winnerId` is rebroadcast verbatim; no state is read or written. -/
def handleBattleResult (db : DB) (roomId winnerId pinId : String) :
    DB × List OutMsg :=
  (db, [⟨Target.room roomId, Payload.battleResultSync winnerId pinId⟩])

/-- `DROP_PIN` handler (src/server.ts:265-274): unconditionally opens a
vote: broadcasts `START_VOTE` with a fresh id `vote_${Date.now()}` and
deadline `Date.now() + 15000`; no state is read or written. -/
def handleDropPin (db : DB) (roomId pinId : String) (targetDay : Int)
    (userId : String) (now : Nat) : DB × List OutMsg :=
  (db, [⟨Target.room roomId,
         Payload.startVote ("vote_" ++ toString now) pinId targetDay userId
           (now + 15000)⟩])

/-- `SUBMIT_VOTE` handler (src/server.ts:276-279): an unconditional
whole-room rebroadcast of the ballot; no state is read or written. -/
def handleSubmitVote (db : DB) (roomId voteId userId : String)
    (isAgree : Bool) : DB × List OutMsg :=
  (db, [⟨Target.room roomId, Payload.voteReceived voteId userId isAgree⟩])

/-- `UPDATE pins SET assigned_day = ? WHERE id = ?`. -/
def setAssignedDay (pinId : String) (day : Int) (pins : List PinRow) :
    List PinRow :=
  pins.map (fun p => if p.id = pinId then { p with assigned_day := day } else p)

/-- `VOTE_FINAL_RESULT` handler (src/server.ts:281-287): if the
client-asserted `success` flag is true, set the pin's `assigned_day`;
either way broadcast `VOTE_RESULT_SYNC`. -/
def handleVoteFinalResult (db : DB) (roomId : String) (success : Bool)
    (pinId : String) (targetDay : Int) : DB × List OutMsg :=
  (if success then { db with pins := setAssignedDay pinId targetDay db.pins }
   else db,
   [⟨Target.room roomId, Payload.voteResultSync success pinId targetDay⟩])

/-- `SET_PIN_TIME` handler (src/server.ts:289-293).  `writeOk` is the
outcome of the awaited `UPDATE`: on failure the exception aborts the
handler before the broadcast, so nothing changes and nothing at all is
emitted. -/
def handleSetPinTime (writeOk : Bool) (db : DB) (roomId pinId : String)
    (timeSlot : Option String) (day : Int) : DB × List OutMsg :=
  if writeOk then
    ({ db with pins := db.pins.map (fun p =>
        if p.id = pinId then { p with time_slot := timeSlot, assigned_day := day }
        else p) },
     [⟨Target.room roomId, Payload.pinTimeUpdated pinId timeSlot day⟩])
  else
    (db, [])

/-- True of a `BATTLE_RESULT_SYNC` payload, i.e. a winner announcement. -/
def isBattleResultSync : Payload → Bool
  | Payload.battleResultSync _ _ => true
  | _ => false

/-- Modelled from the spec (refinement comparison only; the server code
contains no such computation): the standard rock-paper-scissors
relation — ROCK beats SCISSORS, SCISSORS beats PAPER, PAPER beats ROCK. -/
def specRpsBeats : String → String → Bool
  | "ROCK", "SCISSORS" => true
  | "SCISSORS", "PAPER" => true
  | "PAPER", "ROCK" => true
  | _, _ => false

/-- Modelled from the spec (refinement comparison only; the server code
contains no such computation): a vote succeeds iff a strict majority of
the ballots actually cast agree; a tie counts as disagree. -/
def specVoteSuccess (ballots : List Bool) : Bool :=
  ballots.length < 2 * (ballots.filter (fun b => b)).length

/-! ## Concrete fixtures used for counterexamples and witnesses -/

/-- A fixture pin, unscheduled (`assigned_day = 0`). -/
def pin3 : PinRow :=
  { id := "pin-3", trip_id := "t1", room_id := "r", place_id := "pl1",
    name := "Museum", lat := 10, lng := 20, assigned_day := 0,
    time_slot := none, order_idx := 0, locked_by := none, locked_until := none }

/-- A fixture database holding one unscheduled pin. -/
def dbPin : DB :=
  { trips := [], rooms := [], users := [], pins := [pin3],
    canvas_events := [], messages := [] }

/-- The empty database. -/
def dbEmpty : DB :=
  { trips := [], rooms := [], users := [], pins := [],
    canvas_events := [], messages := [] }

/-- A fixture canvas event. -/
def ev1 : CanvasEventRow :=
  { id := "e1", room_id := "r", user_id := "A", type := "line",
    payload := "p1", created_at := 1, is_undone := false }

/-- A second, more recent fixture canvas event. -/
def ev2 : CanvasEventRow :=
  { id := "e2", room_id := "r", user_id := "B", type := "line",
    payload := "p2", created_at := 2, is_undone := false }

/-- A fixture database whose room `r` holds two non-undone events. -/
def dbTwoEvents : DB :=
  { trips := [], rooms := [], users := [], pins := [],
    canvas_events := [ev1, ev2], messages := [] }

/-- A fixture user row whose extra fields are not the column defaults. -/
def userA : UserRow :=
  { id := "A", nickname := "old-nick", avatar_url := "old-avatar",
    status_emoji := some "zzz", rps_wins := 3, undo_used := 1 }

/-- A fixture database holding one user. -/
def dbUser : DB :=
  { trips := [], rooms := [], users := [userA], pins := [],
    canvas_events := [], messages := [] }

/-! ## Claims about the duel protocol (C1) -/

/-- C1, counterexample.  The claim says the coordinator itself determines
the duel winner by the standard rock-paper-scissors relation once both
choices are in.  In the code both `RPS_CHOICE` submissions leave the
server state untouched and emit no winner announcement at all, and the
winner that does get broadcast comes from a client-supplied
`BATTLE_RESULT`, copied verbatim: here A chose ROCK and B chose
SCISSORS (so the standard relation makes A the winner), yet the
coordinator happily rebroadcasts B as winner. -/
theorem C1_counterexample :
    specRpsBeats "ROCK" "SCISSORS" = true
    ∧ (handleRpsChoice dbPin "r" "b1" "A" "ROCK").1 = dbPin
    ∧ (handleRpsChoice dbPin "r" "b1" "B" "SCISSORS").1 = dbPin
    ∧ (((handleRpsChoice dbPin "r" "b1" "A" "ROCK").2
        ++ (handleRpsChoice dbPin "r" "b1" "B" "SCISSORS").2).all
        (fun m => !(isBattleResultSync m.payload)) = true)
    ∧ handleBattleResult dbPin "r" "B" "pin-7"
        = (dbPin, [⟨Target.room "r", Payload.battleResultSync "B" "pin-7"⟩]) :=
  ⟨rfl, rfl, rfl, rfl, rfl⟩

/-- C1, amended: the coordinator does not determine the winner.  A
`RPS_CHOICE` leaves all state unchanged and emits no winner
announcement (only a rebroadcast of the choice), and a client-supplied
`BATTLE_RESULT` is rebroadcast verbatim as `BATTLE_RESULT_SYNC`, with
no evaluation of the rock-paper-scissors relation and no tie/restart
handling. -/
theorem C1_amended_relay (db : DB)
    (roomId battleId userId choice winnerId pinId : String) :
    (handleRpsChoice db roomId battleId userId choice).1 = db
    ∧ (∀ m ∈ (handleRpsChoice db roomId battleId userId choice).2,
         isBattleResultSync m.payload = false)
    ∧ handleBattleResult db roomId winnerId pinId
        = (db, [⟨Target.room roomId, Payload.battleResultSync winnerId pinId⟩]) := by
  refine ⟨rfl, ?_, rfl⟩
  intro m hm
  simp only [handleRpsChoice, List.mem_singleton] at hm
  subst hm
  rfl

/-- Witness for `C1_amended_relay` at a concrete input. -/
theorem C1_amended_relay_witness :
    isBattleResultSync
      (Payload.rpsChoiceReceived "b1" "A" "ROCK") = false :=
  (C1_amended_relay dbPin "r" "b1" "A" "ROCK" "B" "pin-7").2.1
    ⟨Target.room "r", Payload.rpsChoiceReceived "b1" "A" "ROCK"⟩ (by decide)

/-! ## Claims about the vote protocol (C2, C7) -/

/-- C2, counterexample.  The claim says vote success is determined by a
majority of the ballots actually cast.  Here all three cast ballots
disagree (so the spec majority rule yields failure), yet a
`VOTE_FINAL_RESULT` carrying the client-asserted flag `success = true`
still sets the pin's `assigned_day` to the target day: the coordinator
never tallies ballots, it trusts the flag. -/
theorem C2_counterexample :
    specVoteSuccess [false, false, false] = false
    ∧ ((handleVoteFinalResult
          (handleSubmitVote
            (handleSubmitVote
              (handleSubmitVote dbPin "r" "v1" "A" false).1
              "r" "v1" "B" false).1
            "r" "v1" "C" false).1
          "r" true "pin-3" 2).1.pins.map (fun p => p.assigned_day) = [2]) := by
  exact ⟨rfl, by decide⟩

/-- C2, amended: success is exactly the client-asserted `success` flag of
the `VOTE_FINAL_RESULT` message, not a majority computed from ballots.
It remains true that exactly on success the pin's `assigned_day` is set
to `targetDay` and that on failure no state changes. -/
theorem C2_amended_flag (db : DB) (roomId pinId : String) (targetDay : Int) :
    handleVoteFinalResult db roomId false pinId targetDay
      = (db, [⟨Target.room roomId, Payload.voteResultSync false pinId targetDay⟩])
    ∧ (handleVoteFinalResult db roomId true pinId targetDay).2
      = [⟨Target.room roomId, Payload.voteResultSync true pinId targetDay⟩]
    ∧ (handleVoteFinalResult db roomId true pinId targetDay).1.trips = db.trips
    ∧ (handleVoteFinalResult db roomId true pinId targetDay).1.users = db.users
    ∧ (handleVoteFinalResult db roomId true pinId targetDay).1.canvas_events
      = db.canvas_events
    ∧ ∀ p ∈ (handleVoteFinalResult db roomId true pinId targetDay).1.pins,
        (p.id = pinId → p.assigned_day = targetDay)
        ∧ (p.id ≠ pinId → p ∈ db.pins) := by
  refine ⟨rfl, rfl, rfl, rfl, rfl, ?_⟩
  intro p hp
  simp only [handleVoteFinalResult, if_pos, setAssignedDay, List.mem_map] at hp
  obtain ⟨q, hq, rfl⟩ := hp
  by_cases h : q.id = pinId
  · refine ⟨fun _ => ?_, fun hne => absurd ?_ hne⟩
    · simp [h]
    · simp [h]
  · refine ⟨fun hEq => absurd ?_ h, fun _ => ?_⟩
    · rw [if_neg h] at hEq; exact hEq
    · simpa [h] using hq

/-- Witness for `C2_amended_flag` at a concrete input. -/
theorem C2_amended_flag_witness :
    (handleVoteFinalResult dbPin "r" false "pin-3" 2).1 = dbPin
    ∧ ({ pin3 with assigned_day := 2 } : PinRow).assigned_day = 2 := by
  have h := C2_amended_flag dbPin "r" "pin-3" 2
  refine ⟨congrArg Prod.fst h.1, ?_⟩
  exact (h.2.2.2.2.2 { pin3 with assigned_day := 2 } (by decide)).1 (by decide)

/-- C7, counterexample.  The claim says a vote's outcome depends only on
the ballots cast before its deadline.  Here the very same ballot record
(A and B both agreed, submitted through `SUBMIT_VOTE`) leads to two
different pin states depending solely on the client-asserted `success`
flag of `VOTE_FINAL_RESULT`: the outcome is not a function of the
ballots, because the coordinator stores no ballots at all. -/
theorem C7_counterexample :
    ((handleVoteFinalResult
        (handleSubmitVote
          (handleSubmitVote dbPin "r" "v1" "A" true).1
          "r" "v1" "B" true).1
        "r" true "pin-3" 2).1.pins
      ≠ (handleVoteFinalResult
          (handleSubmitVote
            (handleSubmitVote dbPin "r" "v1" "A" true).1
            "r" "v1" "B" true).1
          "r" false "pin-3" 2).1.pins) := by
  decide

/-- C7, amended: the coordinator keeps no ballots and enforces no
deadline.  A ballot submission, at any time (in particular after
finalization), changes no state and is only rebroadcast — so nothing is
ever overwritten on re-submission — and interposing a ballot before a
finalization changes nothing about the finalization's effect, whose
outcome is solely the client-asserted `success` flag. -/
theorem C7_amended_relay (db : DB) (roomId voteId userId : String)
    (isAgree : Bool) (success : Bool) (pinId : String) (targetDay : Int) :
    handleSubmitVote db roomId voteId userId isAgree
      = (db, [⟨Target.room roomId, Payload.voteReceived voteId userId isAgree⟩])
    ∧ handleVoteFinalResult (handleSubmitVote db roomId voteId userId isAgree).1
        roomId success pinId targetDay
      = handleVoteFinalResult db roomId success pinId targetDay :=
  ⟨rfl, rfl⟩

/-! ## Claims about the at-most-one-arbitration invariant (C3) -/

/-- C3, counterexample.  The claim says a second arbitration for a pin
with one already active is rejected.  Here a vote over `pin-7` is
opened at time 1000 (its window runs to 16000), and a second `DROP_PIN`
for the same pin arrives at time 2000, well inside that window: the
coordinator opens a second vote (`START_VOTE` is broadcast again, with
a fresh vote id) instead of rejecting the attempt — it tracks no
arbitration state whatsoever. -/
theorem C3_counterexample :
    (handleDropPin dbPin "r" "pin-7" 2 "A" 1000).2
      = [⟨Target.room "r", Payload.startVote "vote_1000" "pin-7" 2 "A" 16000⟩]
    ∧ handleDropPin (handleDropPin dbPin "r" "pin-7" 2 "A" 1000).1
        "r" "pin-7" 3 "B" 2000
      = ((handleDropPin dbPin "r" "pin-7" 2 "A" 1000).1,
         [⟨Target.room "r", Payload.startVote "vote_2000" "pin-7" 3 "B" 17000⟩]) :=
  ⟨rfl, rfl⟩

/-- C3, amended: the coordinator keeps no arbitration state at all.
Every `BATTLE_START_TRIGGER` and every `DROP_PIN` unconditionally
broadcasts a new arbitration start for the named pin (never a
rejection), regardless of any arbitration already in flight; no state
is read or written, so in particular nothing pre-existing is
affected. -/
theorem C3_amended_unconditional (db : DB)
    (roomId pinId userA userB userId : String) (targetDay : Int) (now : Nat) :
    handleBattleStartTrigger db roomId pinId userA userB
      = (db, [⟨Target.room roomId, Payload.battleStart pinId userA userB⟩])
    ∧ handleDropPin db roomId pinId targetDay userId now
      = (db, [⟨Target.room roomId,
               Payload.startVote ("vote_" ++ toString now) pinId targetDay
                 userId (now + 15000)⟩]) :=
  ⟨rfl, rfl⟩

/-! ## Claims about persistence failures (C8) -/

/-- C8, counterexample.  The claim says a failed persistence write is
surfaced to the originating client as a retryable error.  When the
awaited write fails, the handler's exception aborts it before any emit:
the output is the empty list — no broadcast, but also no error message
of any kind back to the client. -/
theorem C8_counterexample :
    handleDrawAction false dbPin "r" "A" "line" "pts" 5 "abc" = (dbPin, [])
    ∧ handleSetPinTime false dbPin "r" "pin-3" (some "am") 1 = (dbPin, []) :=
  ⟨rfl, rfl⟩

/-- C8, amended: when the persistence write fails the mutation is indeed
not acknowledged (no committed broadcast, no state change), but the
originating client receives nothing at all — the handler aborts
silently instead of sending a retryable error.  On a successful write
the mutation is broadcast as committed. -/
theorem C8_amended_silent (writeOk : Bool) (db : DB)
    (roomId userId type payload : String) (now : Nat) (rand : String)
    (pinId : String) (timeSlot : Option String) (day : Int) :
    (writeOk = false →
       handleDrawAction writeOk db roomId userId type payload now rand = (db, [])
       ∧ handleSetPinTime writeOk db roomId pinId timeSlot day = (db, []))
    ∧ (writeOk = true →
       (handleDrawAction writeOk db roomId userId type payload now rand).2
         = [⟨Target.room roomId,
             Payload.syncAction ("evt_" ++ toString now ++ "_" ++ rand)
               userId type payload⟩]
       ∧ (handleSetPinTime writeOk db roomId pinId timeSlot day).2
         = [⟨Target.room roomId, Payload.pinTimeUpdated pinId timeSlot day⟩]) := by
  constructor <;> intro h <;> subst h <;> exact ⟨rfl, rfl⟩

/-- Witness for `C8_amended_silent` at a concrete input. -/
theorem C8_amended_silent_witness :
    handleDrawAction false dbEmpty "r" "A" "line" "pts" 7 "z" = (dbEmpty, [])
    ∧ handleSetPinTime false dbEmpty "r" "p" none 0 = (dbEmpty, []) :=
  (C8_amended_silent false dbEmpty "r" "A" "line" "pts" 7 "z" "p" none 0).1 rfl

/-! ## Claims about join notifications (C6) -/

/-- After `socket.join`, the joining socket is a member of the room. -/
theorem contains_joinRooms (rooms : Rooms) (s r : String) :
    List.contains (joinRooms rooms s r) (r, s) = true := by
  unfold joinRooms
  by_cases h : (r, s) ∈ rooms
  · simp [h]
  · simp [h]

/-- C6, counterexample.  The claim says only the *other* members — not
the joiner — receive the presence-joined notification.  The handler
performs `socket.join(roomId)` first and then emits `USER_JOINED` via
`io.to(roomId)`, which reaches every socket in the room including the
one that just joined: here the joiner itself receives the
notification. -/
theorem C6_counterexample :
    (⟨Target.room "r", Payload.userJoined "joiner"⟩ : OutMsg)
      ∈ (handleJoinRoom [("r", "other")] dbPin "joiner" "r").2
    ∧ delivered (handleJoinRoom [("r", "other")] dbPin "joiner" "r").1 "joiner"
        ⟨Target.room "r", Payload.userJoined "joiner"⟩ "joiner" = true := by
  exact ⟨by decide, by decide⟩

/-- C6, amended: the presence-joined notification goes to the whole room
— every member after the join receives it, the joiner included — and it
carries only the new participant's identity (the payload of the
`USER_JOINED` broadcast holds the socket id and nothing else; nickname
and avatar are absent). -/
theorem C6_amended_whole_room (rooms : Rooms) (db : DB)
    (socketId roomId : String) :
    (handleJoinRoom rooms db socketId roomId).2
      = [⟨Target.selfSocket,
          Payload.syncTrips (db.trips.filter (fun t => t.room_id == roomId))⟩,
         ⟨Target.room roomId, Payload.userJoined socketId⟩]
    ∧ (∀ s, List.contains (handleJoinRoom rooms db socketId roomId).1 (roomId, s)
          = true →
        delivered (handleJoinRoom rooms db socketId roomId).1 socketId
          ⟨Target.room roomId, Payload.userJoined socketId⟩ s = true)
    ∧ delivered (handleJoinRoom rooms db socketId roomId).1 socketId
        ⟨Target.room roomId, Payload.userJoined socketId⟩ socketId = true := by
  refine ⟨rfl, ?_, ?_⟩
  · intro s hs
    exact hs
  · exact contains_joinRooms rooms socketId roomId

/-- Witness for `C6_amended_whole_room` at a concrete input. -/
theorem C6_amended_whole_room_witness :
    delivered (handleJoinRoom [("r", "other")] dbPin "joiner" "r").1 "joiner"
      ⟨Target.room "r", Payload.userJoined "joiner"⟩ "other" = true :=
  (C6_amended_whole_room [("r", "other")] dbPin "joiner" "r").2.1 "other"
    (by decide)

/-! ## Claims about undo (C4, C5) -/

/-- Scanning a list from a non-empty accumulator always yields a result
that is the accumulator or a list member, is at least as recent as the
accumulator, and is at least as recent as every list member. -/
theorem foldl_pickStep_some (l : List CanvasEventRow) :
    ∀ b : CanvasEventRow, ∃ c,
      l.foldl pickStep (some b) = some c
      ∧ (c = b ∨ c ∈ l)
      ∧ b.created_at ≤ c.created_at
      ∧ ∀ x ∈ l, x.created_at ≤ c.created_at := by
  induction l with
  | nil =>
      intro b
      exact ⟨b, rfl, Or.inl rfl, le_refl _, by simp⟩
  | cons e l ih =>
      intro b
      by_cases h : b.created_at ≤ e.created_at
      · obtain ⟨c, hc, hmem, hle, hall⟩ := ih e
        refine ⟨c, ?_, ?_, le_trans h hle, ?_⟩
        · simpa [pickStep, h] using hc
        · rcases hmem with rfl | hm
          · exact Or.inr (List.mem_cons_self _ _)
          · exact Or.inr (List.mem_cons_of_mem _ hm)
        · intro x hx
          rcases List.mem_cons.mp hx with rfl | hx'
          · exact hle
          · exact hall x hx'
      · obtain ⟨c, hc, hmem, hle, hall⟩ := ih b
        refine ⟨c, ?_, ?_, hle, ?_⟩
        · simpa [pickStep, h] using hc
        · rcases hmem with rfl | hm
          · exact Or.inl rfl
          · exact Or.inr (List.mem_cons_of_mem _ hm)
        · intro x hx
          rcases List.mem_cons.mp hx with rfl | hx'
          · exact le_trans (le_of_not_le h) hle
          · exact hall x hx'

/-- The row the `ORDER BY created_at DESC LIMIT 1` scan returns belongs
to the scanned list and has the maximal timestamp in it. -/
theorem pickMax_spec (l : List CanvasEventRow) (e : CanvasEventRow)
    (h : l.foldl pickStep none = some e) :
    e ∈ l ∧ ∀ x ∈ l, x.created_at ≤ e.created_at := by
  cases l with
  | nil => simp [List.foldl_nil] at h
  | cons a l =>
      rw [List.foldl_cons] at h
      obtain ⟨c, hc, hmem, hle, hall⟩ := foldl_pickStep_some l a
      have hce : c = e := by
        rw [show pickStep none a = some a from rfl] at h
        rw [hc] at h
        exact Option.some.inj h
      subst hce
      constructor
      · rcases hmem with rfl | hm
        · exact List.mem_cons_self _ _
        · exact List.mem_cons_of_mem _ hm
      · intro x hx
        rcases List.mem_cons.mp hx with rfl | hx'
        · exact hle
        · exact hall x hx'

/-- The scan of a non-empty list returns a row. -/
theorem pickMax_isSome (l : List CanvasEventRow) (h : l ≠ []) :
    ∃ e, l.foldl pickStep none = some e := by
  cases l with
  | nil => exact absurd rfl h
  | cons a l =>
      obtain ⟨c, hc, _, _, _⟩ := foldl_pickStep_some l a
      refine ⟨c, ?_⟩
      rw [List.foldl_cons]
      exact hc

/-- Flagging one event undone removes exactly the rows with its id from
a room's undoable set and keeps everything else, in order. -/
theorem undoable_markUndone (evs : List CanvasEventRow) (r i : String) :
    (markUndone i evs).filter (undoableIn r)
      = (evs.filter (undoableIn r)).filter (fun e => !(e.id == i)) := by
  induction evs with
  | nil => rfl
  | cons a l ih =>
      by_cases hid : a.id = i
      · have hmark : markUndone i (a :: l)
            = { a with is_undone := true } :: markUndone i l := by
          simp only [markUndone, List.map_cons, if_pos hid]
        rw [hmark, List.filter_cons_of_neg (by simp [undoableIn]), ih]
        by_cases hu : undoableIn r a = true
        · rw [List.filter_cons_of_pos hu,
              List.filter_cons_of_neg (by simp [hid])]
        · rw [List.filter_cons_of_neg hu]
      · have hmark : markUndone i (a :: l) = a :: markUndone i l := by
          simp only [markUndone, List.map_cons, if_neg hid]
        rw [hmark]
        by_cases hu : undoableIn r a = true
        · rw [List.filter_cons_of_pos hu, ih,
              List.filter_cons_of_pos hu,
              List.filter_cons_of_pos (by simp [hid])]
        · rw [List.filter_cons_of_neg hu, ih,
              List.filter_cons_of_neg hu]

/-- Removing a present row from a list with pairwise-distinct ids drops
the length by exactly one. -/
theorem length_filter_ne_id (l : List CanvasEventRow) (e : CanvasEventRow)
    (hn : (l.map (fun x => x.id)).Nodup) (he : e ∈ l) :
    (l.filter (fun x => !(x.id == e.id))).length + 1 = l.length := by
  induction l with
  | nil => cases he
  | cons a l ih =>
      simp only [List.map_cons, List.nodup_cons] at hn
      rcases List.mem_cons.mp he with rfl | hmem
      · have hrest : l.filter (fun x => !(x.id == e.id)) = l := by
          apply List.filter_eq_self.mpr
          intro x hx
          simp only [Bool.not_eq_true', beq_eq_false_iff_ne, ne_eq]
          intro hEq
          exact hn.1 (List.mem_map.mpr ⟨x, hx, hEq⟩)
        rw [List.filter_cons_of_neg (by simp), hrest, List.length_cons]
      · have hne : a.id ≠ e.id := by
          intro hEq
          exact hn.1 (hEq ▸ List.mem_map.mpr ⟨e, hmem, rfl⟩)
        have ihh := ih hn.2 hmem
        rw [List.filter_cons_of_pos (by simp [hne])]
        simp only [List.length_cons]
        omega

/-- C4: an `UNDO_REQUEST` on a room with no non-undone event is a no-op
— no broadcast, no persistence write; otherwise the selected event
belongs to the room's non-undone set, has the maximal `created_at` in
it (most recent), gets its `is_undone` flag set, and exactly one
`UNDO_EXECUTE` broadcast carrying its id is emitted. -/
theorem C4_undo_request (db : DB) (roomId : String) :
    (undoable roomId db = [] → handleUndoRequest db roomId = (db, []))
    ∧ ∀ e, mostRecentUndoable db roomId = some e →
        e ∈ undoable roomId db
        ∧ (∀ x ∈ undoable roomId db, x.created_at ≤ e.created_at)
        ∧ handleUndoRequest db roomId
            = ({ db with canvas_events := markUndone e.id db.canvas_events },
               [⟨Target.room roomId, Payload.undoExecute e.id⟩]) := by
  constructor
  · intro h
    unfold handleUndoRequest mostRecentUndoable
    rw [h]
    rfl
  · intro e he
    obtain ⟨hmem, hmax⟩ := pickMax_spec _ _ he
    refine ⟨hmem, hmax, ?_⟩
    unfold handleUndoRequest
    rw [he]

/-- Witness for `C4_undo_request`: the empty room is a no-op, and on a
room with two events the more recent one (`e2`) is undone. -/
theorem C4_undo_request_witness :
    handleUndoRequest dbEmpty "r" = (dbEmpty, [])
    ∧ handleUndoRequest dbTwoEvents "r"
        = ({ dbTwoEvents with
              canvas_events := markUndone "e2" dbTwoEvents.canvas_events },
           [⟨Target.room "r", Payload.undoExecute "e2"⟩]) := by
  constructor
  · exact (C4_undo_request dbEmpty "r").1 (by decide)
  · exact ((C4_undo_request dbTwoEvents "r").2 ev2 (by decide)).2.2

/-- `UNDO_REQUEST` when a most recent non-undone event exists. -/
theorem handleUndoRequest_some (db : DB) (r : String) (e : CanvasEventRow)
    (h : mostRecentUndoable db r = some e) :
    handleUndoRequest db r
      = ({ db with canvas_events := markUndone e.id db.canvas_events },
         [⟨Target.room r, Payload.undoExecute e.id⟩]) := by
  unfold handleUndoRequest
  rw [h]

/-- `UNDO_REQUEST` when no non-undone event exists. -/
theorem handleUndoRequest_none (db : DB) (r : String)
    (h : mostRecentUndoable db r = none) :
    handleUndoRequest db r = (db, []) := by
  unfold handleUndoRequest
  rw [h]

/-- C5: on a room with at least two non-undone events (with the ids
pairwise distinct, as the primary key guarantees), two consecutive
`UNDO_REQUEST`s undo two distinct events — never the same one twice —
namely a most recent one and then a most recent of the remainder; and
when the room held exactly two, a third consecutive request is a no-op. -/
theorem C5_undo_twice (db : DB) (r : String)
    (hid : (db.canvas_events.map (fun e => e.id)).Nodup)
    (hlen : 2 ≤ (undoable r db).length) :
    ∃ e1 e2,
      (handleUndoRequest db r).2 = [⟨Target.room r, Payload.undoExecute e1.id⟩]
      ∧ (handleUndoRequest (handleUndoRequest db r).1 r).2
          = [⟨Target.room r, Payload.undoExecute e2.id⟩]
      ∧ e1 ∈ undoable r db ∧ e2 ∈ undoable r db
      ∧ e1 ≠ e2 ∧ e1.id ≠ e2.id
      ∧ (∀ x ∈ undoable r db, x.created_at ≤ e1.created_at)
      ∧ (∀ x ∈ undoable r db, x.id ≠ e1.id → x.created_at ≤ e2.created_at)
      ∧ ((undoable r db).length = 2 →
          handleUndoRequest (handleUndoRequest (handleUndoRequest db r).1 r).1 r
            = ((handleUndoRequest (handleUndoRequest db r).1 r).1, [])) := by
  have hne : undoable r db ≠ [] := by
    intro h
    rw [h] at hlen
    simp at hlen
  obtain ⟨e1, he1⟩ := pickMax_isSome _ hne
  have hpick1 : mostRecentUndoable db r = some e1 := he1
  obtain ⟨he1mem, he1max⟩ := pickMax_spec _ _ he1
  have hstep1 := handleUndoRequest_some db r e1 hpick1
  have hce1 : (handleUndoRequest db r).1.canvas_events
      = markUndone e1.id db.canvas_events := by
    rw [hstep1]
  have hS1 : undoable r (handleUndoRequest db r).1
      = (undoable r db).filter (fun x => !(x.id == e1.id)) := by
    show (handleUndoRequest db r).1.canvas_events.filter (undoableIn r) = _
    rw [hce1]
    exact undoable_markUndone db.canvas_events r e1.id
  have hSnodup : ((undoable r db).map (fun e => e.id)).Nodup :=
    List.Sublist.nodup ((List.filter_sublist _).map _) hid
  have hlen1 : ((undoable r db).filter (fun x => !(x.id == e1.id))).length + 1
      = (undoable r db).length :=
    length_filter_ne_id _ e1 hSnodup he1mem
  have hne1 : (undoable r db).filter (fun x => !(x.id == e1.id)) ≠ [] := by
    intro h
    rw [h] at hlen1
    simp at hlen1
    omega
  obtain ⟨e2, he2⟩ := pickMax_isSome _ hne1
  have hpick2 : mostRecentUndoable (handleUndoRequest db r).1 r = some e2 := by
    unfold mostRecentUndoable
    rw [hS1]
    exact he2
  obtain ⟨he2mem1, he2max1⟩ := pickMax_spec _ _ he2
  have he2memS : e2 ∈ undoable r db := List.mem_of_mem_filter he2mem1
  have he2id : ¬(e2.id = e1.id) := by
    have h := List.of_mem_filter he2mem1
    simpa using h
  have hstep2 := handleUndoRequest_some (handleUndoRequest db r).1 r e2 hpick2
  refine ⟨e1, e2, by rw [hstep1], by rw [hstep2], he1mem, he2memS,
    fun h => he2id (by rw [h]), fun h => he2id h.symm, he1max, ?_, ?_⟩
  · intro x hx hxne
    exact he2max1 x (List.mem_filter.mpr ⟨hx, by simp [hxne]⟩)
  · intro hlen2
    have hS2 : undoable r (handleUndoRequest (handleUndoRequest db r).1 r).1
        = ((undoable r db).filter (fun x => !(x.id == e1.id))).filter
            (fun x => !(x.id == e2.id)) := by
      rw [hstep2]
      show (markUndone e2.id
          (handleUndoRequest db r).1.canvas_events).filter (undoableIn r) = _
      rw [hce1, undoable_markUndone, undoable_markUndone]
      rfl
    have hS1nodup : (((undoable r db).filter
        (fun x => !(x.id == e1.id))).map (fun e => e.id)).Nodup :=
      List.Sublist.nodup ((List.filter_sublist _).map _) hSnodup
    have hlen2' : ((((undoable r db).filter (fun x => !(x.id == e1.id))).filter
        (fun x => !(x.id == e2.id))).length) + 1
        = ((undoable r db).filter (fun x => !(x.id == e1.id))).length :=
      length_filter_ne_id _ e2 hS1nodup he2mem1
    have hS2nil : ((undoable r db).filter (fun x => !(x.id == e1.id))).filter
        (fun x => !(x.id == e2.id)) = [] := by
      have h0 : (((undoable r db).filter (fun x => !(x.id == e1.id))).filter
          (fun x => !(x.id == e2.id))).length = 0 := by omega
      exact List.length_eq_zero.mp h0
    have hpick3 : mostRecentUndoable
        (handleUndoRequest (handleUndoRequest db r).1 r).1 r = none := by
      unfold mostRecentUndoable
      rw [hS2, hS2nil]
      rfl
    exact handleUndoRequest_none _ r hpick3

/-- Witness for `C5_undo_twice`: on the two-event room, the third
consecutive undo request changes nothing and emits nothing. -/
theorem C5_undo_twice_witness :
    handleUndoRequest
        (handleUndoRequest (handleUndoRequest dbTwoEvents "r").1 "r").1 "r"
      = ((handleUndoRequest (handleUndoRequest dbTwoEvents "r").1 "r").1, []) := by
  obtain ⟨e1, e2, -, -, -, -, -, -, -, -, h3⟩ :=
    C5_undo_twice dbTwoEvents "r" (by decide) (by decide)
  exact h3 (by decide)

/-! ## Claims about profile updates (C9) -/

/-- C9: when the user's row already exists, `UPDATE_PROFILE` performs
the `ON CONFLICT ... DO UPDATE` path: only that row's `nickname` and
`avatar_url` change, its `status_emoji`, `rps_wins` and `undo_used`
keep their prior values, every other user's row is unchanged, and no
other table is touched. -/
theorem C9_update_profile_frame (db : DB)
    (roomId userId nickname avatarUrl : String)
    (h : db.users.any (fun u => u.id == userId) = true) :
    (handleUpdateProfile db roomId userId nickname avatarUrl).1.users
      = db.users.map (fun u =>
          if u.id = userId then
            { u with nickname := nickname, avatar_url := avatarUrl }
          else u)
    ∧ (handleUpdateProfile db roomId userId nickname avatarUrl).1.trips
        = db.trips
    ∧ (handleUpdateProfile db roomId userId nickname avatarUrl).1.rooms
        = db.rooms
    ∧ (handleUpdateProfile db roomId userId nickname avatarUrl).1.pins
        = db.pins
    ∧ (handleUpdateProfile db roomId userId nickname avatarUrl).1.canvas_events
        = db.canvas_events
    ∧ (handleUpdateProfile db roomId userId nickname avatarUrl).1.messages
        = db.messages
    ∧ (∀ u ∈ db.users, u.id ≠ userId →
        u ∈ (handleUpdateProfile db roomId userId nickname avatarUrl).1.users)
    ∧ (∀ u ∈ db.users, u.id = userId →
        ∃ u' ∈ (handleUpdateProfile db roomId userId nickname avatarUrl).1.users,
          u'.id = u.id ∧ u'.nickname = nickname ∧ u'.avatar_url = avatarUrl
          ∧ u'.status_emoji = u.status_emoji ∧ u'.rps_wins = u.rps_wins
          ∧ u'.undo_used = u.undo_used)
    ∧ (handleUpdateProfile db roomId userId nickname avatarUrl).2
        = [⟨Target.room roomId,
            Payload.profileUpdated userId nickname avatarUrl⟩] := by
  have husers : (handleUpdateProfile db roomId userId nickname avatarUrl).1.users
      = db.users.map (fun u =>
          if u.id = userId then
            { u with nickname := nickname, avatar_url := avatarUrl }
          else u) := by
    simp only [handleUpdateProfile, h, if_true]
  refine ⟨husers, rfl, rfl, rfl, rfl, rfl, ?_, ?_, rfl⟩
  · intro u hu hne
    rw [husers]
    exact List.mem_map.mpr ⟨u, hu, by simp [hne]⟩
  · intro u hu hEq
    refine ⟨{ u with nickname := nickname, avatar_url := avatarUrl },
      ?_, rfl, rfl, rfl, rfl, rfl, rfl⟩
    rw [husers]
    exact List.mem_map.mpr ⟨u, hu, by simp [hEq]⟩

/-- Witness for `C9_update_profile_frame` at a concrete input: the
stored user `A` keeps `status_emoji`, `rps_wins`, `undo_used`. -/
theorem C9_update_profile_frame_witness :
    (handleUpdateProfile dbUser "r" "A" "new-nick" "new-avatar").1.users
      = dbUser.users.map (fun u =>
          if u.id = "A" then
            { u with nickname := "new-nick", avatar_url := "new-avatar" }
          else u) :=
  (C9_update_profile_frame dbUser "r" "A" "new-nick" "new-avatar"
    (by decide)).1

/-! ## Claims about frame effects of the relay handlers (C10) -/

/-- C10: handling `RPS_CHOICE` or `SUBMIT_VOTE` leaves the whole
persistent state unchanged — no table row is inserted or updated — and
the only effect is one whole-room rebroadcast of the incoming data. -/
theorem C10_relay_pure (db : DB) (roomId battleId userId choice : String)
    (voteId voterId : String) (isAgree : Bool) :
    handleRpsChoice db roomId battleId userId choice
      = (db, [⟨Target.room roomId,
               Payload.rpsChoiceReceived battleId userId choice⟩])
    ∧ handleSubmitVote db roomId voteId voterId isAgree
      = (db, [⟨Target.room roomId,
               Payload.voteReceived voteId voterId isAgree⟩]) :=
  ⟨rfl, rfl⟩

end MapChaos
